import Mathlib

/-!
Shallow embedding of the NPE-PSQ tokamak plasma simulation core
(`deepseek_c_20251223_1ccfe5.c` with configuration header
`deepseek_c_20251223_6364bc.c`).  C `float` arithmetic is modelled over
the real numbers; the physics kernels and the state advancement engine
are transcribed statement by statement from the source.  The engine's
call to the process-wide random source (`rand() / RAND_MAX`) is modelled
by an explicit parameter `u` standing for the drawn value.
-/

noncomputable section

/-! ## Device parameters and physical constants (npe_config.h and #defines) -/

def TOKAMAK_MAJOR_RADIUS : ℝ := 1.8

def TOKAMAK_MINOR_RADIUS : ℝ := 0.6

def TOKAMAK_TOROIDAL_FIELD : ℝ := 5.3

def SAFETY_FACTOR_Q95_MIN : ℝ := 3.0

def BETA_NORMAL_LIMIT : ℝ := 3.5

def VERTICAL_DISPLACEMENT_MAX : ℝ := 0.15

def MU0 : ℝ := 4.0e-7 * Real.pi

def ELECTRON_CHARGE : ℝ := 1.602e-19

def ELECTRON_MASS : ℝ := 9.109e-31

def PROTON_MASS : ℝ := 1.673e-27

/-! ## Data model -/

/-- The `PlasmaState` record of the configuration header.  The engine also
reads and writes `state->stored_energy`, so that field is part of the
effective plasma-state data model and is included here. -/
structure PlasmaState where
  plasma_current : ℝ
  safety_factor_q95 : ℝ
  beta_normalized : ℝ
  li_inductance : ℝ
  radial_position : ℝ
  vertical_position : ℝ
  elongation : ℝ
  triangularity : ℝ
  temperature_core : ℝ
  temperature_edge : ℝ
  density_core : ℝ
  density_edge : ℝ
  mhd_activity_level : ℝ
  ntm_amplitude : ℝ
  elm_frequency : ℝ
  neutron_rate : ℝ
  impurity_concentration : ℝ
  radiation_power : ℝ
  stored_energy : ℝ

/-- One entry of the `heating_systems` array of `PlasmaControlSystem`. -/
structure HeatingSystem where
  power : ℝ
  frequency : ℝ
  enabled : Bool

/-- The fields of `PlasmaControlSystem` that `advance_plasma_state` reads.
The engine never writes through its control pointer. -/
structure PlasmaControlSystem where
  pf_coil_currents : Fin 10 → ℝ
  vertical_coil_currents : Fin 4 → ℝ
  horizontal_coil_currents : Fin 4 → ℝ
  heating_systems : Fin 3 → HeatingSystem
  fuel_injection_rate : ℝ
  impurity_injection_rate : ℝ
  simulation_time : ℝ
  energy_confinement_time : ℝ

/-! ## Physics kernels -/

/-- The normalized minor radius `sqrtf((R - R0)*(R - R0) + Z*Z) / a`
computed inline by `grad_shafranov_solution`. -/
def normalized_radius (R Z : ℝ) : ℝ :=
  Real.sqrt ((R - TOKAMAK_MAJOR_RADIUS) * (R - TOKAMAK_MAJOR_RADIUS) + Z * Z) /
    TOKAMAK_MINOR_RADIUS

/-- `grad_shafranov_solution(R, Z, params)`; only `params[0]` is read, passed
here as `params0`. -/
def grad_shafranov_solution (R Z : ℝ) (params0 : ℝ) : ℝ :=
  let r := normalized_radius R Z
  if r ≥ 1 then 0 else params0 * (1 - r * r)

/-- The denominator `MU0 * R0 * I_p` of the division performed by
`safety_factor_profile`, with `I_p = state->plasma_current * 1e6`. -/
def safety_factor_denom (state : PlasmaState) : ℝ :=
  MU0 * TOKAMAK_MAJOR_RADIUS * (state.plasma_current * 1e6)

/-- `safety_factor_profile(r_normalized, state)`. -/
def safety_factor_profile (r_normalized : ℝ) (state : PlasmaState) : ℝ :=
  let q := (2 * Real.pi * TOKAMAK_TOROIDAL_FIELD * r_normalized * r_normalized *
      TOKAMAK_MINOR_RADIUS * TOKAMAK_MINOR_RADIUS) / safety_factor_denom state
  q * (1 + 0.5 * r_normalized * r_normalized)

/-- `calculate_beta(state)`. -/
def calculate_beta (state : PlasmaState) : ℝ :=
  let pressure_avg := (state.density_core * 1e19 * state.temperature_core * 1.602e-16) / 3
  let B_total := Real.sqrt (TOKAMAK_TOROIDAL_FIELD * TOKAMAK_TOROIDAL_FIELD +
    (MU0 * state.plasma_current * 1e6 / (2 * Real.pi * TOKAMAK_MINOR_RADIUS)) ^ 2)
  2 * MU0 * pressure_avg / (B_total * B_total)

/-- `calculate_beta_normalized(state)`. -/
def calculate_beta_normalized (state : PlasmaState) : ℝ :=
  let beta := calculate_beta state * 100
  beta * TOKAMAK_MINOR_RADIUS * TOKAMAK_TOROIDAL_FIELD / state.plasma_current

/-- `energy_confinement_time(state, heating_power)`: the ITER-like H-mode
power-law scaling. -/
def energy_confinement_time (state : PlasmaState) (heating_power : ℝ) : ℝ :=
  let Ip := state.plasma_current
  let Bt := TOKAMAK_TOROIDAL_FIELD
  let n := state.density_core * 0.1
  let R := TOKAMAK_MAJOR_RADIUS
  let a := TOKAMAK_MINOR_RADIUS
  let kappa := state.elongation
  let tau_E := 0.0562 * Ip ^ (0.93 : ℝ) * Bt ^ (0.15 : ℝ) * n ^ (0.41 : ℝ) *
    R ^ (1.97 : ℝ) * a ^ (0.58 : ℝ) * kappa ^ (0.78 : ℝ)
  tau_E * heating_power ^ (-0.69 : ℝ)

/-- The electron cyclotron resonance frequency
`ELECTRON_CHARGE * TOKAMAK_TOROIDAL_FIELD / (2 * M_PI * ELECTRON_MASS)`
computed by `ecrh_heating_model`. -/
def f_ce : ℝ := ELECTRON_CHARGE * TOKAMAK_TOROIDAL_FIELD / (2 * Real.pi * ELECTRON_MASS)

/-- The absorption factor branch of `ecrh_heating_model`. -/
def ecrh_absorption (frequency : ℝ) : ℝ :=
  if |frequency - f_ce| < 1e9 then 0.8
  else 0.3 * Real.exp (-(frequency - f_ce) ^ 2 / (2 * 1e18))

/-- `ecrh_heating_model(power, frequency, state, deposition_profile)`:
returns the temperature increment together with the 10-entry deposition
profile the C function writes into its output buffer. -/
def ecrh_heating_model (power frequency : ℝ) (state : PlasmaState) :
    ℝ × (Fin 10 → ℝ) :=
  let absorption := ecrh_absorption frequency
  let power_deposited := power * absorption
  let profile : Fin 10 → ℝ := fun i =>
    let r := (i : ℝ) / 10
    Real.exp (-(r - 0.5) ^ 2 / 0.1)
  let delta_T := power_deposited / (state.density_core * 1e19 * ELECTRON_CHARGE * 1000)
  (delta_T, profile)

/-! ## State advancement engine -/

/-- `advance_plasma_state(state, control, dt)`.  The single call to
`rand() / RAND_MAX` inside the MHD-activity update is modelled by the
explicit parameter `u`. -/
def advance_plasma_state (s : PlasmaState) (c : PlasmaControlSystem) (dt : ℝ)
    (u : ℝ) : PlasmaState :=
  -- Current evolution
  let Lp : ℝ := 5.0e-7
  let Rp : ℝ := 1.0e-6
  let V_loop := c.pf_coil_currents 0 * 0.1
  let dIp_dt := (V_loop - Rp * (s.plasma_current * 1e6)) / Lp
  let plasma_current' := s.plasma_current + dIp_dt * dt / 1e6
  -- Energy balance
  let P_heating := ∑ i : Fin 3,
    (if (c.heating_systems i).enabled then (c.heating_systems i).power else 0)
  let P_loss := s.stored_energy / c.energy_confinement_time
  let dW_dt := P_heating - P_loss
  let stored_energy' := s.stored_energy + dW_dt * dt
  let plasma_volume := 2 * Real.pi * Real.pi * TOKAMAK_MAJOR_RADIUS *
    TOKAMAK_MINOR_RADIUS * TOKAMAK_MINOR_RADIUS * s.elongation
  let temperature_core' := stored_energy' * 1e6 /
    (1.5 * s.density_core * 1e19 * plasma_volume * ELECTRON_CHARGE * 1000)
  -- Density evolution
  let S_in := c.fuel_injection_rate
  let tau_p : ℝ := 10
  let S_out := s.density_core * 1e19 * plasma_volume / tau_p
  let dn_dt := (S_in - S_out) / plasma_volume
  let density_core' := s.density_core + dn_dt * dt / 1e19
  -- Position evolution
  let mass_plasma := density_core' * 1e19 * plasma_volume * (PROTON_MASS + ELECTRON_MASS)
  let F_vertical := ∑ i : Fin 4,
    c.vertical_coil_currents i * plasma_current' * 0.1
  let damping : ℝ := 0.1
  let dVz_dt := (F_vertical - damping * s.vertical_position) / mass_plasma
  let vertical_position' := s.vertical_position + s.vertical_position * dt +
    0.5 * dVz_dt * dt * dt
  let s1 : PlasmaState :=
    { s with
      plasma_current := plasma_current'
      stored_energy := stored_energy'
      temperature_core := temperature_core'
      density_core := density_core'
      vertical_position := vertical_position' }
  -- Stability updates
  let q95 := safety_factor_profile 0.95 s1
  let betaN := calculate_beta_normalized s1
  let mhd0 := 0.1 * Real.sin (c.simulation_time * 100) + 0.05 * u
  -- Disruption conditions
  let mhd1 := mhd0 + (if q95 < SAFETY_FACTOR_Q95_MIN then 0.5 else 0)
  let mhd2 := mhd1 + (if betaN > BETA_NORMAL_LIMIT then 0.3 else 0)
  let mhd3 := mhd2 + (if |vertical_position'| > VERTICAL_DISPLACEMENT_MAX then 0.7 else 0)
  { s1 with
    safety_factor_q95 := q95
    beta_normalized := betaN
    mhd_activity_level := mhd3 }

/-- The whole mutable footprint of one `advance_plasma_state` call: the C
function receives both the plasma state and the control record by pointer
but contains no store through the control pointer, so the control record
comes back unchanged. -/
def advance_system (s : PlasmaState) (c : PlasmaControlSystem) (dt u : ℝ) :
    PlasmaState × PlasmaControlSystem :=
  (advance_plasma_state s c dt u, c)

/-- The local `plasma_volume` quantity of `advance_plasma_state`:
`2 * M_PI * M_PI * R0 * a * a * elongation`. -/
def plasma_volume (s : PlasmaState) : ℝ :=
  2 * Real.pi * Real.pi * TOKAMAK_MAJOR_RADIUS * TOKAMAK_MINOR_RADIUS *
    TOKAMAK_MINOR_RADIUS * s.elongation

/-! ## Test fixtures -/

/-- A plasma state with every field zero. -/
def zeroPlasmaState : PlasmaState :=
  { plasma_current := 0, safety_factor_q95 := 0, beta_normalized := 0,
    li_inductance := 0, radial_position := 0, vertical_position := 0,
    elongation := 0, triangularity := 0, temperature_core := 0,
    temperature_edge := 0, density_core := 0, density_edge := 0,
    mhd_activity_level := 0, ntm_amplitude := 0, elm_frequency := 0,
    neutron_rate := 0, impurity_concentration := 0, radiation_power := 0,
    stored_energy := 0 }

/-- A control record with every coil current zero, all heating disabled. -/
def zeroControl : PlasmaControlSystem :=
  { pf_coil_currents := fun _ => 0, vertical_coil_currents := fun _ => 0,
    horizontal_coil_currents := fun _ => 0,
    heating_systems := fun _ => { power := 0, frequency := 0, enabled := false },
    fuel_injection_rate := 0, impurity_injection_rate := 0,
    simulation_time := 0, energy_confinement_time := 0 }

/-- A 15 MA, otherwise zeroed, plasma state (q95 recomputes below 3). -/
def stateA : PlasmaState := { zeroPlasmaState with plasma_current := 15 }

/-- A 1 MA, otherwise zeroed, plasma state (q95 recomputes above 3). -/
def stateB : PlasmaState := { zeroPlasmaState with plasma_current := 1 }

/-- The end-to-end scenario state of the spec: `plasma_current = 15`,
`density_core = 1`, `temperature_core = 15`, `elongation = 1.7`,
`stored_energy = 5`, `vertical_position = 0`. -/
def scenarioState : PlasmaState :=
  { zeroPlasmaState with
    plasma_current := 15
    density_core := 1
    temperature_core := 15
    elongation := 1.7
    stored_energy := 5 }

/-- The end-to-end scenario control record: all coil currents zero, exactly
heating system 0 enabled at power 10, tracked confinement time 5 s. -/
def scenarioControl : PlasmaControlSystem :=
  { zeroControl with
    heating_systems := fun i =>
      if i = 0 then { power := 10, frequency := 0, enabled := true }
      else { power := 0, frequency := 0, enabled := false }
    energy_confinement_time := 5 }

/-! ## Unfolding lemmas for the engine (all definitional) -/

lemma advance_plasma_current_eq (s : PlasmaState) (c : PlasmaControlSystem) (dt u : ℝ) :
    (advance_plasma_state s c dt u).plasma_current =
      s.plasma_current +
        ((c.pf_coil_currents 0 * 0.1 - 1.0e-6 * (s.plasma_current * 1e6)) / 5.0e-7) * dt / 1e6 :=
  rfl

lemma advance_stored_energy_eq (s : PlasmaState) (c : PlasmaControlSystem) (dt u : ℝ) :
    (advance_plasma_state s c dt u).stored_energy =
      s.stored_energy +
        ((∑ i : Fin 3, (if (c.heating_systems i).enabled then (c.heating_systems i).power else 0)) -
          s.stored_energy / c.energy_confinement_time) * dt :=
  rfl

lemma advance_density_core_eq (s : PlasmaState) (c : PlasmaControlSystem) (dt u : ℝ) :
    (advance_plasma_state s c dt u).density_core =
      s.density_core +
        ((c.fuel_injection_rate -
            s.density_core * 1e19 * (2 * Real.pi * Real.pi * TOKAMAK_MAJOR_RADIUS *
              TOKAMAK_MINOR_RADIUS * TOKAMAK_MINOR_RADIUS * s.elongation) / 10) /
          (2 * Real.pi * Real.pi * TOKAMAK_MAJOR_RADIUS *
            TOKAMAK_MINOR_RADIUS * TOKAMAK_MINOR_RADIUS * s.elongation)) * dt / 1e19 :=
  rfl

lemma advance_vertical_position_eq (s : PlasmaState) (c : PlasmaControlSystem) (dt u : ℝ) :
    (advance_plasma_state s c dt u).vertical_position =
      s.vertical_position + s.vertical_position * dt +
        0.5 * (((∑ i : Fin 4, c.vertical_coil_currents i *
              (advance_plasma_state s c dt u).plasma_current * 0.1) -
            0.1 * s.vertical_position) /
            ((advance_plasma_state s c dt u).density_core * 1e19 * plasma_volume s *
              (PROTON_MASS + ELECTRON_MASS))) * dt * dt :=
  rfl

lemma advance_q95_eval (s : PlasmaState) (c : PlasmaControlSystem) (dt u : ℝ) :
    (advance_plasma_state s c dt u).safety_factor_q95 =
      safety_factor_profile 0.95 (advance_plasma_state s c dt u) :=
  rfl

lemma advance_betaN_eval (s : PlasmaState) (c : PlasmaControlSystem) (dt u : ℝ) :
    (advance_plasma_state s c dt u).beta_normalized =
      calculate_beta_normalized (advance_plasma_state s c dt u) :=
  rfl

lemma advance_mhd_decomp (s : PlasmaState) (c : PlasmaControlSystem) (dt u : ℝ) :
    (advance_plasma_state s c dt u).mhd_activity_level =
      0.1 * Real.sin (c.simulation_time * 100) + 0.05 * u
      + (if (advance_plasma_state s c dt u).safety_factor_q95 < SAFETY_FACTOR_Q95_MIN then 0.5 else 0)
      + (if (advance_plasma_state s c dt u).beta_normalized > BETA_NORMAL_LIMIT then 0.3 else 0)
      + (if |(advance_plasma_state s c dt u).vertical_position| > VERTICAL_DISPLACEMENT_MAX
          then 0.7 else 0) :=
  rfl

/-! ## Evaluation lemmas for the kernels -/

/-- At `r = 0.95` the safety-factor kernel collapses to an exact rational
multiple of the reciprocal plasma current: the factors of `pi` in numerator
and denominator cancel. -/
lemma safety_factor_q95_eval (st : PlasmaState) (h : st.plasma_current ≠ 0) :
    safety_factor_profile 0.95 st = 6.9416915625 / st.plasma_current := by
  simp only [safety_factor_profile, safety_factor_denom, TOKAMAK_TOROIDAL_FIELD,
    TOKAMAK_MINOR_RADIUS, TOKAMAK_MAJOR_RADIUS, MU0]
  have hπ := Real.pi_ne_zero
  field_simp
  ring_nf

/-- Zero core density forces the averaged pressure, hence beta and
normalized beta, to zero. -/
lemma calculate_beta_normalized_zero (st : PlasmaState) (h : st.density_core = 0) :
    calculate_beta_normalized st = 0 := by
  simp [calculate_beta_normalized, calculate_beta, h]

/-! ## Claim theorems -/

/-- C1: after q95 and normalized beta are recomputed, `advance_plasma_state`
adds 0.5 to `mhd_activity_level` exactly when the recomputed q95 is below
3.0, adds 0.3 exactly when the recomputed normalized beta exceeds 3.5, and
adds 0.7 exactly when the absolute vertical position exceeds 0.15; the three
penalties are additive and independent, and, holding the control inputs and
the random draw equal, a run whose recomputed q95 is below the minimum ends
the step with `mhd_activity_level` at least 0.5 higher than an otherwise
identical run without that condition. -/
theorem C1_disruption_penalties :
    (∀ (s : PlasmaState) (c : PlasmaControlSystem) (dt u : ℝ),
      (advance_plasma_state s c dt u).mhd_activity_level =
        0.1 * Real.sin (c.simulation_time * 100) + 0.05 * u
        + (if (advance_plasma_state s c dt u).safety_factor_q95 < 3.0 then 0.5 else 0)
        + (if (advance_plasma_state s c dt u).beta_normalized > 3.5 then 0.3 else 0)
        + (if |(advance_plasma_state s c dt u).vertical_position| > 0.15 then 0.7 else 0)) ∧
    (∀ (s₁ s₂ : PlasmaState) (c : PlasmaControlSystem) (dt u : ℝ),
      (advance_plasma_state s₁ c dt u).safety_factor_q95 < 3.0 →
      ¬ (advance_plasma_state s₂ c dt u).safety_factor_q95 < 3.0 →
      ((advance_plasma_state s₁ c dt u).beta_normalized > 3.5 ↔
        (advance_plasma_state s₂ c dt u).beta_normalized > 3.5) →
      ((|(advance_plasma_state s₁ c dt u).vertical_position| > 0.15) ↔
        (|(advance_plasma_state s₂ c dt u).vertical_position| > 0.15)) →
      (advance_plasma_state s₂ c dt u).mhd_activity_level + 0.5 ≤
        (advance_plasma_state s₁ c dt u).mhd_activity_level) := by
  have hdec : ∀ (s : PlasmaState) (c : PlasmaControlSystem) (dt u : ℝ),
      (advance_plasma_state s c dt u).mhd_activity_level =
        0.1 * Real.sin (c.simulation_time * 100) + 0.05 * u
        + (if (advance_plasma_state s c dt u).safety_factor_q95 < 3.0 then 0.5 else 0)
        + (if (advance_plasma_state s c dt u).beta_normalized > 3.5 then 0.3 else 0)
        + (if |(advance_plasma_state s c dt u).vertical_position| > 0.15 then 0.7 else 0) :=
    fun s c dt u => advance_mhd_decomp s c dt u
  refine ⟨hdec, ?_⟩
  intro s₁ s₂ c dt u hq1 hq2 hb hz
  rw [hdec s₁ c dt u, hdec s₂ c dt u, if_pos hq1, if_neg hq2]
  by_cases hβ : (advance_plasma_state s₁ c dt u).beta_normalized > 3.5
  · rw [if_pos hβ, if_pos (hb.mp hβ)]
    by_cases hv : |(advance_plasma_state s₁ c dt u).vertical_position| > 0.15
    · rw [if_pos hv, if_pos (hz.mp hv)]; linarith
    · rw [if_neg hv, if_neg (fun hv2 => hv (hz.mpr hv2))]; linarith
  · rw [if_neg hβ, if_neg (fun hβ2 => hβ (hb.mpr hβ2))]
    by_cases hv : |(advance_plasma_state s₁ c dt u).vertical_position| > 0.15
    · rw [if_pos hv, if_pos (hz.mp hv)]; linarith
    · rw [if_neg hv, if_neg (fun hv2 => hv (hz.mpr hv2))]; linarith

/-- C1 witness: with zeroed controls, a zero timestep, and a zero random
draw, the 15 MA state (recomputed q95 about 0.46) ends the step with an
MHD activity level 0.5 above the 1 MA state (recomputed q95 about 6.94). -/
theorem C1_disruption_penalties_witness :
    (advance_plasma_state stateB zeroControl 0 0).mhd_activity_level + 0.5 ≤
      (advance_plasma_state stateA zeroControl 0 0).mhd_activity_level := by
  have eA : (advance_plasma_state stateA zeroControl 0 0).plasma_current = 15 := by
    rw [advance_plasma_current_eq]; norm_num [stateA, zeroControl]
  have eB : (advance_plasma_state stateB zeroControl 0 0).plasma_current = 1 := by
    rw [advance_plasma_current_eq]; norm_num [stateB, zeroControl]
  have dA : (advance_plasma_state stateA zeroControl 0 0).density_core = 0 := by
    rw [advance_density_core_eq]; norm_num [stateA, zeroPlasmaState]
  have dB : (advance_plasma_state stateB zeroControl 0 0).density_core = 0 := by
    rw [advance_density_core_eq]; norm_num [stateB, zeroPlasmaState]
  have bA : (advance_plasma_state stateA zeroControl 0 0).beta_normalized = 0 := by
    rw [advance_betaN_eval]; exact calculate_beta_normalized_zero _ dA
  have bB : (advance_plasma_state stateB zeroControl 0 0).beta_normalized = 0 := by
    rw [advance_betaN_eval]; exact calculate_beta_normalized_zero _ dB
  have zA : (advance_plasma_state stateA zeroControl 0 0).vertical_position = 0 := by
    rw [advance_vertical_position_eq]; norm_num [stateA, zeroPlasmaState]
  have zB : (advance_plasma_state stateB zeroControl 0 0).vertical_position = 0 := by
    rw [advance_vertical_position_eq]; norm_num [stateB, zeroPlasmaState]
  refine C1_disruption_penalties.2 stateA stateB zeroControl 0 0 ?_ ?_ ?_ ?_
  · rw [advance_q95_eval, safety_factor_q95_eval _ (by rw [eA]; norm_num), eA]; norm_num
  · rw [advance_q95_eval, safety_factor_q95_eval _ (by rw [eB]; norm_num), eB]; norm_num
  · rw [bA, bB]
  · rw [zA, zB]

/-- C2: from the spec's end-to-end starting state (`plasma_current = 15`,
`density_core = 1`, `temperature_core = 15`, `elongation = 1.7`,
`stored_energy = 5`, `vertical_position = 0`), with all coil currents zero,
exactly one heating system enabled at power 10, and a tracked energy
confinement time of at least 1 s, a single `advance_plasma_state` step with
`dt = 0.001` changes `plasma_current` by strictly less than 1% of its prior
value and strictly increases `stored_energy`. -/
theorem C2_end_to_end_step (s : PlasmaState) (c : PlasmaControlSystem) (u : ℝ)
    (hIp : s.plasma_current = 15) (hn : s.density_core = 1)
    (hT : s.temperature_core = 15) (hk : s.elongation = 1.7)
    (hW : s.stored_energy = 5) (hz : s.vertical_position = 0)
    (hpf : ∀ i, c.pf_coil_currents i = 0)
    (hvc : ∀ i, c.vertical_coil_currents i = 0)
    (hhc : ∀ i, c.horizontal_coil_currents i = 0)
    (hheat : ∃ j, (c.heating_systems j).enabled = true ∧
      (c.heating_systems j).power = 10 ∧
      ∀ i, i ≠ j → (c.heating_systems i).enabled = false)
    (htau : 1 ≤ c.energy_confinement_time) :
    |(advance_plasma_state s c 0.001 u).plasma_current - s.plasma_current| <
      0.01 * s.plasma_current ∧
    s.stored_energy < (advance_plasma_state s c 0.001 u).stored_energy := by
  obtain ⟨j, hj_en, hj_pow, hj_other⟩ := hheat
  have hsum : (∑ i : Fin 3,
      (if (c.heating_systems i).enabled then (c.heating_systems i).power else 0)) = 10 := by
    rw [Finset.sum_eq_single j]
    · rw [if_pos hj_en, hj_pow]
    · intro b _ hbj
      rw [hj_other b hbj]
      simp
    · intro hj
      exact absurd (Finset.mem_univ j) hj
  constructor
  · rw [advance_plasma_current_eq, hpf 0, hIp]
    rw [abs_lt]
    norm_num
  · rw [advance_stored_energy_eq, hsum, hW]
    have hloss : (5 : ℝ) / c.energy_confinement_time ≤ 5 :=
      div_le_self (by norm_num) htau
    nlinarith

/-- C2 witness: the scenario state and control evaluate the hypotheses of
the end-to-end step theorem at `dt = 0.001`, `u = 0`. -/
theorem C2_end_to_end_step_witness :
    |(advance_plasma_state scenarioState scenarioControl 0.001 0).plasma_current -
        scenarioState.plasma_current| < 0.01 * scenarioState.plasma_current ∧
    scenarioState.stored_energy <
      (advance_plasma_state scenarioState scenarioControl 0.001 0).stored_energy := by
  refine C2_end_to_end_step scenarioState scenarioControl 0 rfl rfl rfl rfl rfl rfl
    (fun i => rfl) (fun i => rfl) (fun i => rfl) ?_ ?_
  · refine ⟨0, rfl, rfl, ?_⟩
    intro i hi
    fin_cases i
    · exact absurd rfl hi
    · rfl
    · rfl
  · show (1 : ℝ) ≤ 5
    norm_num

/-- C3: the vertical-position update of `advance_plasma_state` is exactly
`z' = z + z * dt + 0.5 * a_z * dt ^ 2`, where the acceleration `a_z` is the
coil force (sum over the 4 vertical coils of
`coil_current * plasma_current * 0.1`) minus the damping `0.1 * z`, divided
by the plasma mass formed from the just-updated density and the plasma
volume; the factor multiplying `dt` is the current vertical position itself,
not a tracked velocity state. -/
theorem C3_vertical_position_update (s : PlasmaState) (c : PlasmaControlSystem)
    (dt u : ℝ) :
    (advance_plasma_state s c dt u).vertical_position =
      s.vertical_position + s.vertical_position * dt +
        0.5 * (((∑ i : Fin 4, c.vertical_coil_currents i *
              (advance_plasma_state s c dt u).plasma_current * 0.1) -
            0.1 * s.vertical_position) /
            ((advance_plasma_state s c dt u).density_core * 1e19 * plasma_volume s *
              (PROTON_MASS + ELECTRON_MASS))) * dt ^ 2 := by
  rw [advance_vertical_position_eq]
  ring

/-- C4: for nonzero plasma current, `safety_factor_profile` returns
`(2 * pi * B_toroidal * r ^ 2 * a ^ 2) / (mu0 * R0 * (plasma_current * 1e6))`
times the shaping correction `1 + 0.5 * r ^ 2` — the kernel itself scales the
stored plasma current by `1e6` — and when the plasma current is zero, the
divisor of that division is zero (so the IEEE float division yields a
non-finite value rather than an error). -/
theorem C4_safety_factor_formula :
    (∀ (r : ℝ) (s : PlasmaState), s.plasma_current ≠ 0 →
      safety_factor_profile r s =
        (2 * Real.pi * TOKAMAK_TOROIDAL_FIELD * r ^ 2 * TOKAMAK_MINOR_RADIUS ^ 2) /
          (MU0 * TOKAMAK_MAJOR_RADIUS * (s.plasma_current * 1e6)) *
          (1 + 0.5 * r ^ 2)) ∧
    (∀ s : PlasmaState, s.plasma_current = 0 → safety_factor_denom s = 0) := by
  constructor
  · intro r s _
    simp only [safety_factor_profile, safety_factor_denom]
    ring
  · intro s h
    simp [safety_factor_denom, h]

/-- C4 witness: the formula evaluated at `r = 1` on a 2 MA state, and the
zero divisor on the all-zero state. -/
theorem C4_safety_factor_formula_witness :
    safety_factor_profile 1 stateB =
      (2 * Real.pi * TOKAMAK_TOROIDAL_FIELD * (1 : ℝ) ^ 2 * TOKAMAK_MINOR_RADIUS ^ 2) /
        (MU0 * TOKAMAK_MAJOR_RADIUS * ((1 : ℝ) * 1e6)) * (1 + 0.5 * (1 : ℝ) ^ 2) ∧
    safety_factor_denom zeroPlasmaState = 0 :=
  ⟨C4_safety_factor_formula.1 1 stateB (by norm_num : (1 : ℝ) ≠ 0),
   C4_safety_factor_formula.2 zeroPlasmaState rfl⟩

/-- C5: with a positive shape parameter, strictly inside the boundary
(`r < 1`) the equilibrium flux estimate equals `params0 * (1 - r ^ 2)` and
is non-negative; it is monotonically non-increasing in the normalized radius
on `[0, 1)`; and everywhere at or outside the boundary (`r ≥ 1`, boundary
included) it is exactly zero. -/
theorem C5_grad_shafranov_shape (p : ℝ) (hp : 0 < p) :
    (∀ R Z : ℝ, normalized_radius R Z < 1 →
      grad_shafranov_solution R Z p = p * (1 - normalized_radius R Z ^ 2) ∧
      0 ≤ grad_shafranov_solution R Z p) ∧
    (∀ R₁ Z₁ R₂ Z₂ : ℝ, normalized_radius R₁ Z₁ ≤ normalized_radius R₂ Z₂ →
      normalized_radius R₂ Z₂ < 1 →
      grad_shafranov_solution R₂ Z₂ p ≤ grad_shafranov_solution R₁ Z₁ p) ∧
    (∀ R Z : ℝ, 1 ≤ normalized_radius R Z → grad_shafranov_solution R Z p = 0) := by
  have hr0 : ∀ R Z : ℝ, 0 ≤ normalized_radius R Z := by
    intro R Z
    exact div_nonneg (Real.sqrt_nonneg _) (by norm_num [TOKAMAK_MINOR_RADIUS])
  have hin : ∀ R Z : ℝ, normalized_radius R Z < 1 →
      grad_shafranov_solution R Z p =
        p * (1 - normalized_radius R Z * normalized_radius R Z) := by
    intro R Z h
    simp only [grad_shafranov_solution]
    rw [if_neg (not_le.mpr h)]
  refine ⟨?_, ?_, ?_⟩
  · intro R Z h
    constructor
    · rw [hin R Z h]; ring
    · rw [hin R Z h]
      have hr := hr0 R Z
      have hsq : normalized_radius R Z * normalized_radius R Z ≤ 1 := by nlinarith
      exact mul_nonneg hp.le (by linarith)
  · intro R₁ Z₁ R₂ Z₂ h12 h2
    rw [hin R₂ Z₂ h2, hin R₁ Z₁ (lt_of_le_of_lt h12 h2)]
    have h1 := hr0 R₁ Z₁
    have hsq : normalized_radius R₁ Z₁ * normalized_radius R₁ Z₁ ≤
        normalized_radius R₂ Z₂ * normalized_radius R₂ Z₂ :=
      mul_le_mul h12 h12 h1 (le_trans h1 h12)
    exact mul_le_mul_of_nonneg_left (by linarith) hp.le
  · intro R Z h
    simp only [grad_shafranov_solution]
    rw [if_pos h]

/-- C5 witness: with shape parameter 2, the flux at normalized radius 0.5
(point `(1.8, 0.3)`) is at most the flux on the magnetic axis `(1.8, 0)`,
and the flux at normalized radius 2 (point `(3, 0)`) is exactly zero. -/
theorem C5_grad_shafranov_shape_witness :
    grad_shafranov_solution 1.8 0.3 2 ≤ grad_shafranov_solution 1.8 0 2 ∧
    grad_shafranov_solution 3 0 2 = 0 := by
  have e1 : normalized_radius 1.8 0 = 0 := by
    simp [normalized_radius, TOKAMAK_MAJOR_RADIUS]
  have e2 : normalized_radius 1.8 0.3 = 0.5 := by
    simp only [normalized_radius, TOKAMAK_MAJOR_RADIUS, TOKAMAK_MINOR_RADIUS]
    rw [show ((1.8 : ℝ) - 1.8) * (1.8 - 1.8) + 0.3 * 0.3 = 0.3 ^ 2 by norm_num,
      Real.sqrt_sq (by norm_num)]
    norm_num
  have e3 : normalized_radius 3 0 = 2 := by
    simp only [normalized_radius, TOKAMAK_MAJOR_RADIUS, TOKAMAK_MINOR_RADIUS]
    rw [show ((3 : ℝ) - 1.8) * (3 - 1.8) + 0 * 0 = 1.2 ^ 2 by norm_num,
      Real.sqrt_sq (by norm_num)]
    norm_num
  constructor
  · exact (C5_grad_shafranov_shape 2 (by norm_num)).2.1 1.8 0 1.8 0.3
      (by rw [e1, e2]; norm_num) (by rw [e2]; norm_num)
  · exact (C5_grad_shafranov_shape 2 (by norm_num)).2.2 3 0 (by rw [e3]; norm_num)

/-- C6: for positive plasma current, core density, elongation and heating
power, `energy_confinement_time` is exactly
`0.0562 * Ip^0.93 * Bt^0.15 * (0.1 * n)^0.41 * R0^1.97 * a^0.58 * kappa^0.78
* P^(-0.69)`, the density entering the power law being the stored
`density_core` scaled by 0.1. -/
theorem C6_confinement_scaling (s : PlasmaState) (P : ℝ)
    (hIp : 0 < s.plasma_current) (hn : 0 < s.density_core)
    (hk : 0 < s.elongation) (hP : 0 < P) :
    energy_confinement_time s P =
      0.0562 * s.plasma_current ^ (0.93 : ℝ) * TOKAMAK_TOROIDAL_FIELD ^ (0.15 : ℝ) *
        (0.1 * s.density_core) ^ (0.41 : ℝ) * TOKAMAK_MAJOR_RADIUS ^ (1.97 : ℝ) *
        TOKAMAK_MINOR_RADIUS ^ (0.58 : ℝ) * s.elongation ^ (0.78 : ℝ) *
        P ^ (-0.69 : ℝ) := by
  simp only [energy_confinement_time]
  rw [mul_comm s.density_core (0.1 : ℝ)]

/-- C6 witness: the scaling law evaluated on the end-to-end scenario state
at unit heating power. -/
theorem C6_confinement_scaling_witness :
    energy_confinement_time scenarioState 1 =
      0.0562 * (15 : ℝ) ^ (0.93 : ℝ) * TOKAMAK_TOROIDAL_FIELD ^ (0.15 : ℝ) *
        (0.1 * (1 : ℝ)) ^ (0.41 : ℝ) * TOKAMAK_MAJOR_RADIUS ^ (1.97 : ℝ) *
        TOKAMAK_MINOR_RADIUS ^ (0.58 : ℝ) * (1.7 : ℝ) ^ (0.78 : ℝ) *
        (1 : ℝ) ^ (-0.69 : ℝ) :=
  C6_confinement_scaling scenarioState 1 (by norm_num : (0 : ℝ) < 15)
    (by norm_num : (0 : ℝ) < 1) (by norm_num : (0 : ℝ) < 1.7)
    (by norm_num : (0 : ℝ) < 1)

/-- C7: the ECRH absorption is exactly 0.8 whenever the driving frequency is
within 1 GHz of the cyclotron resonance frequency `f_ce` (so the temperature
increment is `0.8 * power / (density_core * 1e19 * e * 1000)`); at or beyond
1 GHz offset it is `0.3 * exp(-(f - f_ce)^2 / (2 * 1e18))`, which 10 GHz off
resonance is strictly below 0.1. -/
theorem C7_ecrh_absorption (power frequency : ℝ) (s : PlasmaState) :
    (|frequency - f_ce| < 1e9 →
      ecrh_absorption frequency = 0.8 ∧
      (ecrh_heating_model power frequency s).1 =
        0.8 * power / (s.density_core * 1e19 * ELECTRON_CHARGE * 1000)) ∧
    (1e9 ≤ |frequency - f_ce| →
      ecrh_absorption frequency =
        0.3 * Real.exp (-(frequency - f_ce) ^ 2 / (2 * 1e18))) ∧
    (|frequency - f_ce| = 1e10 → ecrh_absorption frequency < 0.1) := by
  have habs_near : |frequency - f_ce| < 1e9 → ecrh_absorption frequency = 0.8 := by
    intro h
    simp only [ecrh_absorption]
    rw [if_pos h]
  have habs_far : ¬ |frequency - f_ce| < 1e9 →
      ecrh_absorption frequency =
        0.3 * Real.exp (-(frequency - f_ce) ^ 2 / (2 * 1e18)) := by
    intro h
    simp only [ecrh_absorption]
    rw [if_neg h]
  refine ⟨?_, ?_, ?_⟩
  · intro h
    refine ⟨habs_near h, ?_⟩
    have e1 : (ecrh_heating_model power frequency s).1 =
        power * ecrh_absorption frequency /
          (s.density_core * 1e19 * ELECTRON_CHARGE * 1000) := rfl
    rw [e1, habs_near h]
    ring
  · intro h
    exact habs_far (not_lt.mpr h)
  · intro h
    rw [habs_far (by rw [h]; norm_num)]
    have hsq : (frequency - f_ce) ^ 2 = 1e20 := by
      rw [← sq_abs, h]; norm_num
    rw [hsq]
    rw [show (-(1e20 : ℝ) / (2 * 1e18)) = -50 by norm_num]
    have h51 : (51 : ℝ) ≤ Real.exp 50 := by
      have := Real.add_one_le_exp (50 : ℝ)
      linarith
    have hinv : Real.exp (-50 : ℝ) ≤ 1 / 51 := by
      rw [Real.exp_neg]
      rw [inv_eq_one_div]
      exact one_div_le_one_div_of_le (by norm_num) h51
    nlinarith

/-- C7 witness: at exact resonance the absorption is 0.8, and 10 GHz above
resonance it is strictly below 0.1. -/
theorem C7_ecrh_absorption_witness :
    ecrh_absorption f_ce = 0.8 ∧ ecrh_absorption (f_ce + 1e10) < 0.1 :=
  ⟨((C7_ecrh_absorption 0 f_ce zeroPlasmaState).1 (by norm_num)).1,
   (C7_ecrh_absorption 0 (f_ce + 1e10) zeroPlasmaState).2.2 (by norm_num)⟩

/-- C8: every `ecrh_heating_model` call produces a 10-entry deposition
profile whose entry `i` is `exp(-(i / 10 - 0.5)^2 / 0.1)` — a fixed Gaussian
centered at normalized radius 0.5 with width parameter 0.1, sampled at
`i / 10` for `i = 0, ..., 9` — independent of the power, frequency, and
plasma-state arguments. -/
theorem C8_deposition_profile (power frequency : ℝ) (s : PlasmaState) (i : Fin 10) :
    (ecrh_heating_model power frequency s).2 i =
      Real.exp (-((i : ℝ) / 10 - 0.5) ^ 2 / 0.1) :=
  rfl

/-- C9: `advance_plasma_state` mutates only `plasma_current`,
`stored_energy`, `temperature_core`, `density_core`, `vertical_position`,
`safety_factor_q95`, `beta_normalized`, and `mhd_activity_level`: every
other plasma-state field (`li_inductance`, `radial_position`, `elongation`,
`triangularity`, `temperature_edge`, `density_edge`, `ntm_amplitude`,
`elm_frequency`, `neutron_rate`, `impurity_concentration`,
`radiation_power`) and the entire control record come back unchanged. -/
theorem C9_frame_condition (s : PlasmaState) (c : PlasmaControlSystem) (dt u : ℝ) :
    ((advance_system s c dt u).1.li_inductance = s.li_inductance ∧
     (advance_system s c dt u).1.radial_position = s.radial_position ∧
     (advance_system s c dt u).1.elongation = s.elongation ∧
     (advance_system s c dt u).1.triangularity = s.triangularity ∧
     (advance_system s c dt u).1.temperature_edge = s.temperature_edge ∧
     (advance_system s c dt u).1.density_edge = s.density_edge ∧
     (advance_system s c dt u).1.ntm_amplitude = s.ntm_amplitude ∧
     (advance_system s c dt u).1.elm_frequency = s.elm_frequency ∧
     (advance_system s c dt u).1.neutron_rate = s.neutron_rate ∧
     (advance_system s c dt u).1.impurity_concentration = s.impurity_concentration ∧
     (advance_system s c dt u).1.radiation_power = s.radiation_power) ∧
    (advance_system s c dt u).2 = c :=
  ⟨⟨rfl, rfl, rfl, rfl, rfl, rfl, rfl, rfl, rfl, rfl, rfl⟩, rfl⟩

/-- C10: the engine overwrites `mhd_activity_level` rather than accumulating
it: two pre-states differing only in that field give identical post-step MHD
activity levels under the same control inputs, timestep and random draw;
and, for a random draw in `[0, 1]`, the post-step level always lies in
`[-0.1, 1.65]` no matter how large the pre-step value was. -/
theorem C10_mhd_overwrite :
    (∀ (s : PlasmaState) (x : ℝ) (c : PlasmaControlSystem) (dt u : ℝ),
      (advance_plasma_state { s with mhd_activity_level := x } c dt u).mhd_activity_level =
        (advance_plasma_state s c dt u).mhd_activity_level) ∧
    (∀ (s : PlasmaState) (c : PlasmaControlSystem) (dt u : ℝ),
      0 ≤ u → u ≤ 1 →
      -0.1 ≤ (advance_plasma_state s c dt u).mhd_activity_level ∧
      (advance_plasma_state s c dt u).mhd_activity_level ≤ 1.65) := by
  constructor
  · intro s x c dt u
    rfl
  · intro s c dt u hu0 hu1
    rw [advance_mhd_decomp]
    have hs1 := Real.neg_one_le_sin (c.simulation_time * 100)
    have hs2 := Real.sin_le_one (c.simulation_time * 100)
    constructor <;> split_ifs <;> linarith

/-- C10 witness: the bounds hold for the concrete 15 MA state, zero
controls, timestep 0.001 and random draw 0.5. -/
theorem C10_mhd_overwrite_witness :
    -0.1 ≤ (advance_plasma_state stateA zeroControl 0.001 0.5).mhd_activity_level ∧
    (advance_plasma_state stateA zeroControl 0.001 0.5).mhd_activity_level ≤ 1.65 :=
  C10_mhd_overwrite.2 stateA zeroControl 0.001 0.5 (by norm_num) (by norm_num)

end
